import Mathlib

/-!
Verification model of the `mcp-webpublication-server` repository
(`src/service.rs`, `src/models.rs`).

The service is a stateless request-translation layer: each MCP tool call
builds exactly one upstream HTTP request, inspects the outcome, and
reformats the response.  We embed it shallowly: the effectful parts
(environment lookup, the single HTTP send) become explicit parameters, and
every tool-run function returns the list of HTTP requests it issued
together with its `Except` result, so that claims about the issued
requests and about the returned results can both be stated.
-/

/-- JSON values (`serde_json::Value`).  Numbers are restricted to integers,
which is all this service ever places in a request body (`i64` global
ids); response bodies are arbitrary `Json` values supplied by the network
oracle, so nothing in the claims depends on float formatting. -/
inductive Json where
  | null : Json
  | bool (b : Bool) : Json
  | num (n : Int) : Json
  | str (s : String) : Json
  | arr (elems : List Json) : Json
  | obj (fields : List (String × Json)) : Json

/-- Lowercase hex digit, as used by `serde_json` for control-character
escapes. -/
def hexDigit (n : Nat) : Char :=
  "0123456789abcdef".data.getD n '0'

/-- Escape of a single character inside a JSON string, following
`serde_json`'s serializer (`\"`, `\\`, `\b`, `\f`, `\n`, `\r`, `\t`, and
`\u00XX` for the remaining control characters). -/
def escape_char (c : Char) : String :=
  if c = '"' then "\\\""
  else if c = '\\' then "\\\\"
  else if c = '\x08' then "\\b"
  else if c = '\x0c' then "\\f"
  else if c = '\n' then "\\n"
  else if c = '\r' then "\\r"
  else if c.toNat < 32 then
    "\\u00" ++ String.mk [hexDigit (c.toNat / 16), hexDigit (c.toNat % 16)]
  else String.singleton c

/-- A JSON string literal: quotes around the escaped characters. -/
def escape_json_string (s : String) : String :=
  "\"" ++ String.join (s.data.map escape_char) ++ "\""

/-- Indentation used by `serde_json::to_string_pretty`: two spaces per
nesting level. -/
def pretty_indent (lvl : Nat) : String :=
  String.join (List.replicate lvl "  ")

mutual

/-- Pretty-printing of a JSON value at nesting level `lvl`, following
`serde_json`'s `PrettyFormatter` (two-space indent, `[]` and `\x7b\x7d`
for empty collections, one element per line otherwise). -/
def render_value (lvl : Nat) : Json → String
  | .null => "null"
  | .bool b => if b then "true" else "false"
  | .num n => toString n
  | .str s => escape_json_string s
  | .arr [] => "[]"
  | .arr (x :: xs) =>
      "[\n" ++ pretty_indent (lvl + 1) ++ render_value (lvl + 1) x
        ++ render_items (lvl + 1) xs ++ "\n" ++ pretty_indent lvl ++ "]"
  | .obj [] => "\x7b\x7d"
  | .obj (f :: fs) =>
      "\x7b\n" ++ pretty_indent (lvl + 1) ++ render_field (lvl + 1) f
        ++ render_fields (lvl + 1) fs ++ "\n" ++ pretty_indent lvl ++ "\x7d"

/-- Remaining array elements, each preceded by `,\n` and indentation. -/
def render_items (lvl : Nat) : List Json → String
  | [] => ""
  | x :: xs => ",\n" ++ pretty_indent lvl ++ render_value lvl x ++ render_items lvl xs

/-- One object member: escaped key, colon, value. -/
def render_field (lvl : Nat) : String × Json → String
  | (k, v) => escape_json_string k ++ ": " ++ render_value lvl v

/-- Remaining object members, each preceded by `,\n` and indentation. -/
def render_fields (lvl : Nat) : List (String × Json) → String
  | [] => ""
  | f :: fs => ",\n" ++ pretty_indent lvl ++ render_field lvl f ++ render_fields lvl fs

end

/-- `serde_json::to_string_pretty` on a JSON value.  On `serde_json::Value`
this serialization is total (it cannot return an error), so the model is a
plain function. -/
def to_string_pretty (v : Json) : String :=
  render_value 0 v

/-- The configuration struct `ApiConfig` of `src/service.rs`. -/
structure ApiConfig where
  api_url : String
  drive_url : String
  client_id : String
  wp_token : String
  drive_token : String

/-- A process environment: `std::env::var` either finds a value or fails. -/
def Env : Type := String → Option String

/-- `ApiConfig::from_env` of `src/service.rs`: five sequential
`std::env::var` lookups, each missing variable mapped to the error message
naming it.  (`dotenv::dotenv().ok()` only pre-populates the environment
the lookups read; `env` is that resulting environment.) -/
def from_env (env : Env) : Except String ApiConfig :=
  match env "API_URL" with
  | none => .error "API_URL not found in environment"
  | some api_url =>
    match env "DRIVE_URL" with
    | none => .error "DRIVE_URL not found in environment"
    | some drive_url =>
      match env "CLIENT_ID" with
      | none => .error "CLIENT_ID not found in environment"
      | some client_id =>
        match env "WP_TOKEN" with
        | none => .error "WP_TOKEN not found in environment"
        | some wp_token =>
          match env "DRIVE_TOKEN" with
          | none => .error "DRIVE_TOKEN not found in environment"
          | some drive_token =>
            .ok { api_url := api_url, drive_url := drive_url,
                  client_id := client_id, wp_token := wp_token,
                  drive_token := drive_token }

/-- The `ApiEndpoint` enum of `src/service.rs`. -/
inductive ApiEndpoint where
  | loginWs
  | workspaceManagerWs
  | generationWs
  | customizationWs
  | enrichmentWs
  | membershipWs
  | licenceWs
  | galleryManagerWs
  | pageManagerWs
  | driveSecurityWs
  | imageWs
deriving DecidableEq

/-- `ApiEndpoint::path` of `src/service.rs`. -/
def ApiEndpoint.path : ApiEndpoint → String
  | .loginWs => "loginWs"
  | .workspaceManagerWs => "workspaceManagerWs"
  | .generationWs => "generationWs"
  | .customizationWs => "customizationWs"
  | .enrichmentWs => "enrichmentWs"
  | .membershipWs => "membershipWs"
  | .licenceWs => "licenceWs"
  | .galleryManagerWs => "galleryManagerWs"
  | .pageManagerWs => "pageManagerWs"
  | .driveSecurityWs => "driveSecurityWs"
  | .imageWs => "imageWs"

/-- All eleven `ApiEndpoint` variants. -/
def allEndpoints : List ApiEndpoint :=
  [.loginWs, .workspaceManagerWs, .generationWs, .customizationWs,
   .enrichmentWs, .membershipWs, .licenceWs, .galleryManagerWs,
   .pageManagerWs, .driveSecurityWs, .imageWs]

/-- HTTP verb of a request built by the service. -/
inductive HttpMethod where
  | get
  | put
deriving DecidableEq

/-- An upstream HTTP request as assembled by the `reqwest` builder calls in
`src/service.rs`: verb, URL, explicit headers, query parameters, and the
optional JSON body. -/
structure HttpRequest where
  method : HttpMethod
  url : String
  headers : List (String × String)
  query : List (String × String)
  body : Option Json

/-- `rmcp::ErrorData` restricted to what the service constructs:
`ErrorData::internal_error(msg, None)` carries the JSON-RPC internal-error
code `-32603` and the message. -/
structure McpError where
  code : Int
  message : String
deriving DecidableEq

/-- `ErrorData::internal_error` with `data = None`. -/
def McpError.internal_error (message : String) : McpError :=
  { code := -32603, message := message }

/-- `rmcp::model::Content`, restricted to the two constructors the service
uses: `Content::text` and `Content::image(data, mime_type)`. -/
inductive Content where
  | text (s : String)
  | image (data : String) (mimeType : String)
deriving DecidableEq

/-- `rmcp::model::CallToolResult`. -/
structure CallToolResult where
  content : List Content
  is_error : Bool
deriving DecidableEq

/-- `CallToolResult::success`. -/
def CallToolResult.success (content : List Content) : CallToolResult :=
  { content := content, is_error := false }

/-- Outcome of the single `request.send().await` (plus the subsequent body
read) of one upstream request, supplied by the network: either a transport
failure carrying reqwest's error message, or a response with an HTTP
status code and the result of reading/decoding its body. -/
inductive HttpOutcome (β : Type) where
  | sendError (msg : String)
  | response (status : Nat) (body : Except String β)

/-- `reqwest::StatusCode::is_success`: status in `200..=299`. -/
def is_success (status : Nat) : Bool :=
  decide (200 ≤ status) && decide (status < 300)

/-- Canonical reason phrase of a status code, as in the `http` crate
(`StatusCode::canonical_reason`), restricted to common codes; unknown
codes display `<unknown status code>`. -/
def canonical_reason (status : Nat) : String :=
  match status with
  | 200 => "OK"
  | 201 => "Created"
  | 204 => "No Content"
  | 301 => "Moved Permanently"
  | 302 => "Found"
  | 304 => "Not Modified"
  | 400 => "Bad Request"
  | 401 => "Unauthorized"
  | 403 => "Forbidden"
  | 404 => "Not Found"
  | 409 => "Conflict"
  | 429 => "Too Many Requests"
  | 500 => "Internal Server Error"
  | 502 => "Bad Gateway"
  | 503 => "Service Unavailable"
  | _ => "<unknown status code>"

/-- `Display` of `reqwest::StatusCode`: the numeric code followed by the
canonical reason. -/
def status_display (status : Nat) : String :=
  toString status ++ " " ++ canonical_reason status

/-- `WebPublication::make_get_request` of `src/service.rs`.  Returns the
single request it sends together with the handled result.  The body of a
successful response is decoded as `ApiResponse`, whose one field is a
flattened `serde_json::Value`, so the decoded value is returned directly. -/
def make_get_request (cfg : ApiConfig) (endpoint : ApiEndpoint) (method : String)
    (params : List (String × String)) (outcome : HttpOutcome Json) :
    List HttpRequest × Except McpError Json :=
  let url := cfg.api_url ++ endpoint.path ++ "/" ++ method
  let request : HttpRequest :=
    { method := HttpMethod.get, url := url,
      headers := [("Content-Type", "application/json"),
                  ("Cookie", "WP_token=" ++ cfg.wp_token)],
      query := params, body := none }
  ([request],
    match outcome with
    | .sendError e => .error (McpError.internal_error ("Request failed: " ++ e))
    | .response status pbody =>
      if is_success status = false then
        .error (McpError.internal_error
          ("Request failed with status: " ++ status_display status))
      else
        match pbody with
        | .error e => .error (McpError.internal_error ("Failed to parse response: " ++ e))
        | .ok data => .ok data)

/-- `WebPublication::make_put_request` of `src/service.rs`: identical to
the GET helper except for the verb and the JSON body attached by
`.json(&body)`. -/
def make_put_request (cfg : ApiConfig) (endpoint : ApiEndpoint) (method : String)
    (params : List (String × String)) (body : Json) (outcome : HttpOutcome Json) :
    List HttpRequest × Except McpError Json :=
  let url := cfg.api_url ++ endpoint.path ++ "/" ++ method
  let request : HttpRequest :=
    { method := HttpMethod.put, url := url,
      headers := [("Content-Type", "application/json"),
                  ("Cookie", "WP_token=" ++ cfg.wp_token)],
      query := params, body := some body }
  ([request],
    match outcome with
    | .sendError e => .error (McpError.internal_error ("Request failed: " ++ e))
    | .response status pbody =>
      if is_success status = false then
        .error (McpError.internal_error
          ("Request failed with status: " ++ status_display status))
      else
        match pbody with
        | .error e => .error (McpError.internal_error ("Failed to parse response: " ++ e))
        | .ok data => .ok data)

/-- `WebPublication::make_get_image_request` of `src/service.rs`: a GET on
the drive URL with no explicit headers, whose successful body is read as
raw bytes. -/
def make_get_image_request (cfg : ApiConfig) (rel_url : String)
    (params : List (String × String)) (outcome : HttpOutcome (List Nat)) :
    List HttpRequest × Except McpError (List Nat) :=
  let url := cfg.drive_url ++ cfg.client_id ++ "/" ++ rel_url
  let request : HttpRequest :=
    { method := HttpMethod.get, url := url, headers := [],
      query := params, body := none }
  ([request],
    match outcome with
    | .sendError e => .error (McpError.internal_error ("Request failed: " ++ e))
    | .response status pbody =>
      if is_success status = false then
        .error (McpError.internal_error
          ("Request failed with status: " ++ status_display status))
      else
        match pbody with
        | .error e =>
            .error (McpError.internal_error ("Failed to read response bytes: " ++ e))
        | .ok bytes => .ok bytes)

/-- The base64 alphabet of `base64::engine::general_purpose::STANDARD`
(RFC 4648): `A-Z`, `a-z`, `0-9`, `+`, `/`. -/
def base64Alphabet : List Char :=
  "ABCDEFGHIJKLMNOPQRSTUVWXYZabcdefghijklmnopqrstuvwxyz0123456789+/".data

/-- The alphabet character of a six-bit value. -/
def sextetChar (n : Nat) : Char :=
  base64Alphabet.getD n 'A'

/-- `general_purpose::STANDARD.encode`: standard base64 with `=` padding,
processing the byte stream in blocks of three. -/
def base64Encode : List Nat → String
  | [] => ""
  | [b0] =>
      String.mk [sextetChar (b0 / 4), sextetChar (b0 % 4 * 16)] ++ "=="
  | [b0, b1] =>
      String.mk [sextetChar (b0 / 4), sextetChar (b0 % 4 * 16 + b1 / 16),
                 sextetChar (b1 % 16 * 4)] ++ "="
  | b0 :: b1 :: b2 :: rest =>
      String.mk [sextetChar (b0 / 4), sextetChar (b0 % 4 * 16 + b1 / 16),
                 sextetChar (b1 % 16 * 4 + b2 / 64), sextetChar (b2 % 64)]
        ++ base64Encode rest

/-- Index of a character in the base64 alphabet (decoding a sextet). -/
def decodeSextet (c : Char) : Nat :=
  base64Alphabet.indexOf c

/-- Decoding of one four-character base64 block, honouring `=` padding. -/
def decodeChunk4 (c0 c1 c2 c3 : Char) : List Nat :=
  let d0 := decodeSextet c0
  let d1 := decodeSextet c1
  let d2 := decodeSextet c2
  let d3 := decodeSextet c3
  if c3 = '=' then
    if c2 = '=' then [d0 * 4 + d1 / 16]
    else [d0 * 4 + d1 / 16, d1 % 16 * 16 + d2 / 4]
  else [d0 * 4 + d1 / 16, d1 % 16 * 16 + d2 / 4, d2 % 4 * 64 + d3]

/-- Standard base64 decoding of a well-formed encoding, block by block. -/
def base64DecodeChars : List Char → List Nat
  | c0 :: c1 :: c2 :: c3 :: rest => decodeChunk4 c0 c1 c2 c3 ++ base64DecodeChars rest
  | _ => []

/-- Standard base64 decoding of a string. -/
def base64Decode (s : String) : List Nat :=
  base64DecodeChars s.data

/-- `GetResourceRequest` of `src/models.rs` (`resource_gid: i64`; the
64-bit integer is modelled as `Int`, no arithmetic is performed on it). -/
structure GetResourceRequest where
  resource_gid : Int

/-- `ToggleWishlistRequest` of `src/models.rs`. -/
structure ToggleWishlistRequest where
  publication_gid : Int
  wishlist_enabled : Bool

/-- `GetImageRequest` of `src/models.rs`. -/
structure GetImageRequest where
  rel_url : String

/-- The `get_resource` tool of `src/service.rs`: one GET on
`workspaceManagerWs/getResource` with `clientId` and `resourceGId` query
parameters, then pretty-printing of the response value.  (`ApiResponse`'s
single field `data` is a flattened `serde_json::Value`, so the decoded
value is the pretty-printed one.) -/
def get_resource (cfg : ApiConfig) (request : GetResourceRequest)
    (outcome : HttpOutcome Json) :
    List HttpRequest × Except McpError CallToolResult :=
  let resource_gid_str := toString request.resource_gid
  let params := [("clientId", cfg.client_id), ("resourceGId", resource_gid_str)]
  let r := make_get_request cfg ApiEndpoint.workspaceManagerWs "getResource" params outcome
  (r.1,
    match r.2 with
    | .error e => .error e
    | .ok response =>
        .ok (CallToolResult.success [Content.text (to_string_pretty response)]))

/-- The `get_publication_settings` tool of `src/service.rs`: one GET on
`generationWs/getPublicationSettings` with `clientId` and
`publicationGId` query parameters. -/
def get_publication_settings (cfg : ApiConfig) (request : GetResourceRequest)
    (outcome : HttpOutcome Json) :
    List HttpRequest × Except McpError CallToolResult :=
  let resource_gid_str := toString request.resource_gid
  let params := [("clientId", cfg.client_id), ("publicationGId", resource_gid_str)]
  let r := make_get_request cfg ApiEndpoint.generationWs "getPublicationSettings" params outcome
  (r.1,
    match r.2 with
    | .error e => .error e
    | .ok response =>
        .ok (CallToolResult.success [Content.text (to_string_pretty response)]))

/-- The `get_recent_resources` tool of `src/service.rs`: one GET on
`workspaceManagerWs/getRecentResources` with the four fixed query
parameters. -/
def get_recent_resources (cfg : ApiConfig) (outcome : HttpOutcome Json) :
    List HttpRequest × Except McpError CallToolResult :=
  let params := [("clientId", cfg.client_id), ("include", "PUBLICATION"),
                 ("itemsPerPage", "20"), ("pageNum", "0")]
  let r := make_get_request cfg ApiEndpoint.workspaceManagerWs "getRecentResources" params outcome
  (r.1,
    match r.2 with
    | .error e => .error e
    | .ok response =>
        .ok (CallToolResult.success [Content.text (to_string_pretty response)]))

/-- The `toggle_wishlist` tool of `src/service.rs`: one PUT on
`generationWs/updatePublicationSettings` with a `clientId` query
parameter and the three-field JSON body built by `serde_json::json!`. -/
def toggle_wishlist (cfg : ApiConfig) (request : ToggleWishlistRequest)
    (outcome : HttpOutcome Json) :
    List HttpRequest × Except McpError CallToolResult :=
  let params := [("clientId", cfg.client_id)]
  let body := Json.obj
    [("clientId", Json.str cfg.client_id),
     ("globalId", Json.num request.publication_gid),
     ("wishlistEnabled", Json.bool request.wishlist_enabled)]
  let r := make_put_request cfg ApiEndpoint.generationWs "updatePublicationSettings"
    params body outcome
  (r.1,
    match r.2 with
    | .error e => .error e
    | .ok response =>
        .ok (CallToolResult.success [Content.text (to_string_pretty response)]))

/-- Rust's `str::ends_with` on strings: suffix test on the character
sequence.  (Defined on the underlying character lists so that it
evaluates by kernel reduction.) -/
def ends_with (s p : String) : Bool :=
  p.data.isSuffixOf s.data

/-- The `get_cover_image` tool of `src/service.rs`: one GET on the drive
URL with the `token` query parameter, base64 encoding of the bytes, and a
MIME type chosen from the `rel_url` suffix. -/
def get_cover_image (cfg : ApiConfig) (request : GetImageRequest)
    (outcome : HttpOutcome (List Nat)) :
    List HttpRequest × Except McpError CallToolResult :=
  let params := [("token", cfg.drive_token)]
  let r := make_get_image_request cfg request.rel_url params outcome
  (r.1,
    match r.2 with
    | .error e => .error e
    | .ok image_bytes =>
        let base64_image := base64Encode image_bytes
        let mime_type :=
          if ends_with request.rel_url ".png" then "image/png"
          else if ends_with request.rel_url ".jpg" || ends_with request.rel_url ".jpeg" then
            "image/jpeg"
          else if ends_with request.rel_url ".gif" then "image/gif"
          else if ends_with request.rel_url ".webp" then "image/webp"
          else "image/jpeg"
        .ok (CallToolResult.success [Content.image base64_image mime_type]))

/-- JSON schema primitive types appearing in the advertised tool
parameter objects (`src/models.rs` via `schemars::JsonSchema`). -/
inductive ParamType where
  | integer64
  | boolean
  | string
deriving DecidableEq

/-- The advertised MCP tool schema: the five `#[tool]` methods of the
`#[tool_router]` block in `src/service.rs`, each with the fields of its
`Parameters<...>` request type from `src/models.rs` (none for
`get_recent_resources`, which takes no `Parameters`). -/
def toolSchemas : List (String × List (String × ParamType)) :=
  [("get_resource", [("resource_gid", ParamType.integer64)]),
   ("get_publication_settings", [("resource_gid", ParamType.integer64)]),
   ("get_recent_resources", []),
   ("toggle_wishlist", [("publication_gid", ParamType.integer64),
                        ("wishlist_enabled", ParamType.boolean)]),
   ("get_cover_image", [("rel_url", ParamType.string)])]

/-- The parameter shapes the specification lists: a 64-bit identifier, an
identifier plus a boolean, or a single string. -/
def smallShape : List (String × ParamType) → Bool
  | [(_, ParamType.integer64)] => true
  | [(_, ParamType.integer64), (_, ParamType.boolean)] => true
  | [(_, ParamType.string)] => true
  | _ => false

/-- Whether a request carries a credential-bearing header: a `Cookie` or
`Authorization` header. -/
def hasAuthHeader (r : HttpRequest) : Bool :=
  r.headers.any (fun p => p.1 == "Cookie" || p.1 == "Authorization")

/-- A concrete configuration used to exhibit counterexamples. -/
def cfg0 : ApiConfig :=
  { api_url := "A/", drive_url := "D/", client_id := "c",
    wp_token := "tok", drive_token := "dtok" }

/-- A concrete environment with every variable set. -/
def env0 : Env := fun v => some (v ++ "-val")

/-- A concrete environment missing exactly `DRIVE_URL`. -/
def env1 : Env := fun v => if v = "DRIVE_URL" then none else some "x"

/-- Whether a request URL has the form the specification claims for every
request: the configured API base URL, one of the eleven endpoint
segments, a slash, and some method-name remainder.  (`formed_iff` below
shows this boolean is exactly that existential statement.) -/
def formed_from_endpoint (cfg : ApiConfig) (r : HttpRequest) : Bool :=
  allEndpoints.any fun ep => (cfg.api_url ++ ep.path ++ "/").data.isPrefixOf r.url.data

/-- Sanity check that the pretty printer has `serde_json`'s shape on a
representative object. -/
theorem to_string_pretty_example :
    to_string_pretty (Json.obj [("label", Json.str "Cat"), ("globalId", Json.num 2473843)])
      = "\x7b\n  \"label\": \"Cat\",\n  \"globalId\": 2473843\n\x7d" := rfl

/-- String append acts as list append on the character data. -/
theorem data_append_eq (a b : String) : (a ++ b).data = a.data ++ b.data := rfl

/-- Every `ApiEndpoint` variant is in the enumeration. -/
theorem mem_allEndpoints (e : ApiEndpoint) : e ∈ allEndpoints := by
  cases e <;> simp [allEndpoints]

/-- `formed_from_endpoint` decides exactly the claimed URL shape: some
endpoint segment and some method name assemble the URL from the API base
URL. -/
theorem formed_iff (cfg : ApiConfig) (r : HttpRequest) :
    formed_from_endpoint cfg r = true ↔
      ∃ (ep : ApiEndpoint) (method : String),
        r.url = cfg.api_url ++ ep.path ++ "/" ++ method := by
  constructor
  · intro hp
    rw [formed_from_endpoint, List.any_eq_true] at hp
    obtain ⟨ep, -, hpre⟩ := hp
    rw [ List.isPrefixOf_iff_prefix] at hpre
    obtain ⟨t, ht⟩ := hpre
    refine ⟨ep, String.mk t, String.ext ?_⟩
    have hd : (cfg.api_url ++ ep.path ++ "/" ++ String.mk t).data
        = (cfg.api_url ++ ep.path ++ "/").data ++ t := rfl
    rw [hd]
    exact ht.symm
  · rintro ⟨ep, m, hm⟩
    rw [formed_from_endpoint, List.any_eq_true]
    refine ⟨ep, mem_allEndpoints ep, ?_⟩
    rw [ List.isPrefixOf_iff_prefix, hm]
    have hd : (cfg.api_url ++ ep.path ++ "/" ++ m).data
        = (cfg.api_url ++ ep.path ++ "/").data ++ m.data := rfl
    rw [hd]
    exact List.prefix_append _ _

/-- C5: `toggle_wishlist` issues exactly one PUT request to the URL formed
from the configured API base URL, the `generationWs` segment and the
`updatePublicationSettings` method name, with `clientId` as its single
query parameter and a JSON body of exactly the fields `clientId`,
`globalId` and `wishlistEnabled`. -/
theorem C5_toggle_wishlist_request (cfg : ApiConfig) (request : ToggleWishlistRequest)
    (outcome : HttpOutcome Json) :
    (toggle_wishlist cfg request outcome).1 =
      [{ method := HttpMethod.put,
         url := cfg.api_url ++ "generationWs" ++ "/" ++ "updatePublicationSettings",
         headers := [("Content-Type", "application/json"),
                     ("Cookie", "WP_token=" ++ cfg.wp_token)],
         query := [("clientId", cfg.client_id)],
         body := some (Json.obj
           [("clientId", Json.str cfg.client_id),
            ("globalId", Json.num request.publication_gid),
            ("wishlistEnabled", Json.bool request.wishlist_enabled)]) }] := rfl

/-- C6: every tool issues exactly one upstream request, whatever the
outcome, and a transport failure of that single request is propagated
immediately as the tool's error result (no retry is possible: the request
list already has length one). -/
theorem C6_single_request (cfg : ApiConfig) (r1 r2 : GetResourceRequest)
    (tw : ToggleWishlistRequest) (ir : GetImageRequest)
    (o1 o2 o3 o4 : HttpOutcome Json) (oi : HttpOutcome (List Nat)) (e : String) :
    (get_resource cfg r1 o1).1.length = 1 ∧
    (get_publication_settings cfg r2 o2).1.length = 1 ∧
    (get_recent_resources cfg o3).1.length = 1 ∧
    (toggle_wishlist cfg tw o4).1.length = 1 ∧
    (get_cover_image cfg ir oi).1.length = 1 ∧
    (get_resource cfg r1 (HttpOutcome.sendError e)).2 =
      .error (McpError.internal_error ("Request failed: " ++ e)) ∧
    (get_publication_settings cfg r2 (HttpOutcome.sendError e)).2 =
      .error (McpError.internal_error ("Request failed: " ++ e)) ∧
    (get_recent_resources cfg (HttpOutcome.sendError e)).2 =
      .error (McpError.internal_error ("Request failed: " ++ e)) ∧
    (toggle_wishlist cfg tw (HttpOutcome.sendError e)).2 =
      .error (McpError.internal_error ("Request failed: " ++ e)) ∧
    (get_cover_image cfg ir (HttpOutcome.sendError e)).2 =
      .error (McpError.internal_error ("Request failed: " ++ e)) :=
  ⟨rfl, rfl, rfl, rfl, rfl, rfl, rfl, rfl, rfl, rfl⟩

/-- C8 (counterexample): the URL of the one request `get_cover_image`
issues (concretely `D/c/x.png` for the configuration `cfg0`) is not of
the form API base URL ++ endpoint segment ++ "/" ++ method name: by
`formed_iff`, `formed_from_endpoint` decides exactly that shape, and it
is false on this request. -/
theorem C8_counterexample :
    ((make_get_image_request cfg0 "x.png" [("token", cfg0.drive_token)]
        (HttpOutcome.response 200 (Except.ok []))).1.all
      (formed_from_endpoint cfg0)) = false := rfl

/-- C8 (amended): the `ApiEndpoint` enumeration has exactly eleven
variants mapped injectively by `path` to the eleven fixed segments, and
every request URL built by the two JSON helpers is the API base URL plus
one of these segments plus a method name; the image request URL is
instead the drive base URL plus the client id plus the relative URL. -/
theorem C8_endpoints :
    allEndpoints.length = 11 ∧
    (∀ e : ApiEndpoint, e ∈ allEndpoints) ∧
    (allEndpoints.map ApiEndpoint.path).Nodup ∧
    (ApiEndpoint.path .loginWs = "loginWs" ∧
     ApiEndpoint.path .workspaceManagerWs = "workspaceManagerWs" ∧
     ApiEndpoint.path .generationWs = "generationWs" ∧
     ApiEndpoint.path .customizationWs = "customizationWs" ∧
     ApiEndpoint.path .enrichmentWs = "enrichmentWs" ∧
     ApiEndpoint.path .membershipWs = "membershipWs" ∧
     ApiEndpoint.path .licenceWs = "licenceWs" ∧
     ApiEndpoint.path .galleryManagerWs = "galleryManagerWs" ∧
     ApiEndpoint.path .pageManagerWs = "pageManagerWs" ∧
     ApiEndpoint.path .driveSecurityWs = "driveSecurityWs" ∧
     ApiEndpoint.path .imageWs = "imageWs") ∧
    (∀ (cfg : ApiConfig) (ep : ApiEndpoint) (method : String)
        (params : List (String × String)) (outcome : HttpOutcome Json),
      (make_get_request cfg ep method params outcome).1.map HttpRequest.url
        = [cfg.api_url ++ ep.path ++ "/" ++ method]) ∧
    (∀ (cfg : ApiConfig) (ep : ApiEndpoint) (method : String)
        (params : List (String × String)) (body : Json) (outcome : HttpOutcome Json),
      (make_put_request cfg ep method params body outcome).1.map HttpRequest.url
        = [cfg.api_url ++ ep.path ++ "/" ++ method]) ∧
    (∀ (cfg : ApiConfig) (rel_url : String)
        (params : List (String × String)) (outcome : HttpOutcome (List Nat)),
      (make_get_image_request cfg rel_url params outcome).1.map HttpRequest.url
        = [cfg.drive_url ++ cfg.client_id ++ "/" ++ rel_url]) :=
  ⟨by decide, fun e => by cases e <;> decide, by decide, by decide,
   fun _ _ _ _ _ => rfl, fun _ _ _ _ _ _ => rfl, fun _ _ _ _ => rfl⟩

/-- C9 (counterexample): `get_recent_resources` is advertised with an
empty parameter object, which is none of the three parameter shapes the
claim lists. -/
theorem C9_counterexample :
    (("get_recent_resources", ([] : List (String × ParamType))) ∈ toolSchemas) ∧
    (toolSchemas.all fun t => smallShape t.2) = false := by decide

/-- C9 (amended): the advertised schema has exactly five tools, and every
tool's parameter object is one of the listed small shapes (a 64-bit
identifier, an identifier plus a boolean, a string) or is empty
(`get_recent_resources` takes no parameters). -/
theorem C9_tool_schema :
    toolSchemas.length = 5 ∧
    (toolSchemas.all fun t => smallShape t.2 || t.2.isEmpty) = true := by decide

/-- C3 (counterexample): the one request `get_cover_image` issues carries
no `Cookie` and no `Authorization` header at all, so not every upstream
request is authenticated through a cookie or `Authorization` header. -/
theorem C3_counterexample :
    ((get_cover_image cfg0 { rel_url := "cover.png" }
        (HttpOutcome.response 200 (Except.ok [137, 80]))).1.all hasAuthHeader) = false :=
  rfl

/-- C3 (amended): each of the four JSON tools authenticates its single
request with the session cookie header `Cookie: WP_token=<wp_token>`,
while `get_cover_image` authenticates its single request by passing the
drive token as the `token` query parameter (it sends no headers). -/
theorem C3_authentication (cfg : ApiConfig) (r1 r2 : GetResourceRequest)
    (tw : ToggleWishlistRequest) (ir : GetImageRequest)
    (o1 o2 o3 o4 : HttpOutcome Json) (oi : HttpOutcome (List Nat)) :
    (get_resource cfg r1 o1).1.map HttpRequest.headers =
      [[("Content-Type", "application/json"), ("Cookie", "WP_token=" ++ cfg.wp_token)]] ∧
    (get_publication_settings cfg r2 o2).1.map HttpRequest.headers =
      [[("Content-Type", "application/json"), ("Cookie", "WP_token=" ++ cfg.wp_token)]] ∧
    (get_recent_resources cfg o3).1.map HttpRequest.headers =
      [[("Content-Type", "application/json"), ("Cookie", "WP_token=" ++ cfg.wp_token)]] ∧
    (toggle_wishlist cfg tw o4).1.map HttpRequest.headers =
      [[("Content-Type", "application/json"), ("Cookie", "WP_token=" ++ cfg.wp_token)]] ∧
    (get_cover_image cfg ir oi).1.map HttpRequest.headers = [[]] ∧
    (get_cover_image cfg ir oi).1.map HttpRequest.query = [[("token", cfg.drive_token)]] :=
  ⟨rfl, rfl, rfl, rfl, rfl, rfl⟩

/-- C10: on a successful fetch, the MIME type of the returned image
content is computed from the suffix of `rel_url` alone (the fetched bytes
are arbitrary): `image/png` for `.png`, `image/jpeg` for `.jpg`/`.jpeg`,
`image/gif` for `.gif`, `image/webp` for `.webp`, and `image/jpeg` for
every other string. -/
theorem C10_mime_from_suffix (cfg : ApiConfig) (request : GetImageRequest)
    (bytes : List Nat) (status : Nat) (h : is_success status = true) :
    (get_cover_image cfg request (HttpOutcome.response status (Except.ok bytes))).2 =
      .ok (CallToolResult.success
        [Content.image (base64Encode bytes)
          (if ends_with request.rel_url ".png" then "image/png"
           else if ends_with request.rel_url ".jpg" || ends_with request.rel_url ".jpeg" then
             "image/jpeg"
           else if ends_with request.rel_url ".gif" then "image/gif"
           else if ends_with request.rel_url ".webp" then "image/webp"
           else "image/jpeg")]) := by
  simp [get_cover_image, make_get_image_request, h]

/-- Witness for C10 at a concrete input: a `.png` relative URL yields the
`image/png` MIME type and the base64 of the bytes `[1, 2, 3]`. -/
theorem C10_mime_witness :
    (get_cover_image cfg0 { rel_url := "a.png" }
        (HttpOutcome.response 200 (Except.ok [1, 2, 3]))).2 =
      .ok (CallToolResult.success [Content.image "AQID" "image/png"]) :=
  (C10_mime_from_suffix cfg0 { rel_url := "a.png" } [1, 2, 3] 200 (by decide)).trans
    (by rfl)

/-- C2: on a success status whose body decodes to the JSON value `v`,
each of the four JSON tools returns a success `CallToolResult` with a
single text content equal to the pretty-printed serialization of `v`. -/
theorem C2_json_passthrough (cfg : ApiConfig) (r1 r2 : GetResourceRequest)
    (tw : ToggleWishlistRequest) (v : Json) (status : Nat)
    (h : is_success status = true) :
    (get_resource cfg r1 (HttpOutcome.response status (Except.ok v))).2 =
      .ok (CallToolResult.success [Content.text (to_string_pretty v)]) ∧
    (get_publication_settings cfg r2 (HttpOutcome.response status (Except.ok v))).2 =
      .ok (CallToolResult.success [Content.text (to_string_pretty v)]) ∧
    (get_recent_resources cfg (HttpOutcome.response status (Except.ok v))).2 =
      .ok (CallToolResult.success [Content.text (to_string_pretty v)]) ∧
    (toggle_wishlist cfg tw (HttpOutcome.response status (Except.ok v))).2 =
      .ok (CallToolResult.success [Content.text (to_string_pretty v)]) := by
  refine ⟨?_, ?_, ?_, ?_⟩ <;>
    simp [get_resource, get_publication_settings, get_recent_resources, toggle_wishlist,
      make_get_request, make_put_request, h]

/-- Witness for C2 at a concrete input: status 200 and a concrete object
are passed through pretty-printed by `get_resource`. -/
theorem C2_json_passthrough_witness :
    (get_resource cfg0 { resource_gid := 2473843 }
        (HttpOutcome.response 200 (Except.ok
          (Json.obj [("label", Json.str "Cat"), ("globalId", Json.num 2473843)])))).2 =
      .ok (CallToolResult.success
        [Content.text "\x7b\n  \"label\": \"Cat\",\n  \"globalId\": 2473843\n\x7d"]) :=
  (C2_json_passthrough cfg0 { resource_gid := 2473843 } { resource_gid := 0 }
    { publication_gid := 0, wishlist_enabled := true }
    (Json.obj [("label", Json.str "Cat"), ("globalId", Json.num 2473843)])
    200 (by decide)).1.trans (by rfl)

/-- C1: for every tool, a transport failure, a non-success status, or a
body decode failure produces an internal-error result (JSON-RPC code
`-32603`) whose message carries the underlying error message or the
status line, and no success result. -/
theorem C1_error_handling (cfg : ApiConfig) (r1 r2 : GetResourceRequest)
    (tw : ToggleWishlistRequest) (ir : GetImageRequest) (e pe : String)
    (badStatus goodStatus : Nat) (pb : Except String Json)
    (pbi : Except String (List Nat))
    (hb : is_success badStatus = false) (hg : is_success goodStatus = true) :
    (get_resource cfg r1 (HttpOutcome.sendError e)).2 =
      .error (McpError.internal_error ("Request failed: " ++ e)) ∧
    (get_publication_settings cfg r2 (HttpOutcome.sendError e)).2 =
      .error (McpError.internal_error ("Request failed: " ++ e)) ∧
    (get_recent_resources cfg (HttpOutcome.sendError e)).2 =
      .error (McpError.internal_error ("Request failed: " ++ e)) ∧
    (toggle_wishlist cfg tw (HttpOutcome.sendError e)).2 =
      .error (McpError.internal_error ("Request failed: " ++ e)) ∧
    (get_cover_image cfg ir (HttpOutcome.sendError e)).2 =
      .error (McpError.internal_error ("Request failed: " ++ e)) ∧
    (get_resource cfg r1 (HttpOutcome.response badStatus pb)).2 =
      .error (McpError.internal_error
        ("Request failed with status: " ++ status_display badStatus)) ∧
    (get_publication_settings cfg r2 (HttpOutcome.response badStatus pb)).2 =
      .error (McpError.internal_error
        ("Request failed with status: " ++ status_display badStatus)) ∧
    (get_recent_resources cfg (HttpOutcome.response badStatus pb)).2 =
      .error (McpError.internal_error
        ("Request failed with status: " ++ status_display badStatus)) ∧
    (toggle_wishlist cfg tw (HttpOutcome.response badStatus pb)).2 =
      .error (McpError.internal_error
        ("Request failed with status: " ++ status_display badStatus)) ∧
    (get_cover_image cfg ir (HttpOutcome.response badStatus pbi)).2 =
      .error (McpError.internal_error
        ("Request failed with status: " ++ status_display badStatus)) ∧
    (get_resource cfg r1 (HttpOutcome.response goodStatus (Except.error pe))).2 =
      .error (McpError.internal_error ("Failed to parse response: " ++ pe)) ∧
    (get_publication_settings cfg r2 (HttpOutcome.response goodStatus (Except.error pe))).2 =
      .error (McpError.internal_error ("Failed to parse response: " ++ pe)) ∧
    (get_recent_resources cfg (HttpOutcome.response goodStatus (Except.error pe))).2 =
      .error (McpError.internal_error ("Failed to parse response: " ++ pe)) ∧
    (toggle_wishlist cfg tw (HttpOutcome.response goodStatus (Except.error pe))).2 =
      .error (McpError.internal_error ("Failed to parse response: " ++ pe)) ∧
    (get_cover_image cfg ir (HttpOutcome.response goodStatus (Except.error pe))).2 =
      .error (McpError.internal_error ("Failed to read response bytes: " ++ pe)) ∧
    (McpError.internal_error ("Request failed: " ++ e)).code = -32603 := by
  refine ⟨rfl, rfl, rfl, rfl, rfl, ?_, ?_, ?_, ?_, ?_, ?_, ?_, ?_, ?_, ?_, rfl⟩ <;>
    simp [get_resource, get_publication_settings, get_recent_resources, toggle_wishlist,
      get_cover_image, make_get_request, make_put_request, make_get_image_request, hb, hg]

/-- Witness for C1: with status 404 (not a success) the tool result is
the status error, and with status 200 a decode failure is reported as a
parse error. -/
theorem C1_error_handling_witness :
    (get_resource cfg0 { resource_gid := 1 }
        (HttpOutcome.response 404 (Except.ok Json.null))).2 =
      .error (McpError.internal_error
        ("Request failed with status: " ++ status_display 404)) ∧
    (get_resource cfg0 { resource_gid := 1 }
        (HttpOutcome.response 200 (Except.error "EOF while parsing a value"))).2 =
      .error (McpError.internal_error
        ("Failed to parse response: " ++ "EOF while parsing a value")) := by
  obtain ⟨-, -, -, -, -, b1, -, -, -, -, p1, -, -, -, -, -⟩ :=
    C1_error_handling cfg0 { resource_gid := 1 } { resource_gid := 1 }
      { publication_gid := 1, wishlist_enabled := false } { rel_url := "a.png" }
      "boom" "EOF while parsing a value" 404 200 (Except.ok Json.null) (Except.ok [])
      (by decide) (by decide)
  exact ⟨b1, p1⟩

/-- C7: `from_env` succeeds exactly when all five variables are present;
on success the five fields are the variables' values, and on failure the
error message names a missing variable. -/
theorem C7_from_env (env : Env) :
    (∀ cfg, from_env env = .ok cfg →
      env "API_URL" = some cfg.api_url ∧ env "DRIVE_URL" = some cfg.drive_url ∧
      env "CLIENT_ID" = some cfg.client_id ∧ env "WP_TOKEN" = some cfg.wp_token ∧
      env "DRIVE_TOKEN" = some cfg.drive_token) ∧
    ((∃ cfg, from_env env = .ok cfg) ↔
      ((env "API_URL").isSome = true ∧ (env "DRIVE_URL").isSome = true ∧
       (env "CLIENT_ID").isSome = true ∧ (env "WP_TOKEN").isSome = true ∧
       (env "DRIVE_TOKEN").isSome = true)) ∧
    (∀ msg, from_env env = .error msg →
      ∃ v, env v = none ∧ msg = v ++ " not found in environment") := by
  rcases h1 : env "API_URL" with _ | a
  · refine ⟨by simp [from_env, h1], by simp [from_env, h1], ?_⟩
    intro msg hmsg
    simp [from_env, h1] at hmsg
    exact ⟨"API_URL", h1, by rw [← hmsg]; rfl⟩
  rcases h2 : env "DRIVE_URL" with _ | b
  · refine ⟨by simp [from_env, h1, h2], by simp [from_env, h1, h2], ?_⟩
    intro msg hmsg
    simp [from_env, h1, h2] at hmsg
    exact ⟨"DRIVE_URL", h2, by rw [← hmsg]; rfl⟩
  rcases h3 : env "CLIENT_ID" with _ | c
  · refine ⟨by simp [from_env, h1, h2, h3], by simp [from_env, h1, h2, h3], ?_⟩
    intro msg hmsg
    simp [from_env, h1, h2, h3] at hmsg
    exact ⟨"CLIENT_ID", h3, by rw [← hmsg]; rfl⟩
  rcases h4 : env "WP_TOKEN" with _ | d
  · refine ⟨by simp [from_env, h1, h2, h3, h4], by simp [from_env, h1, h2, h3, h4], ?_⟩
    intro msg hmsg
    simp [from_env, h1, h2, h3, h4] at hmsg
    exact ⟨"WP_TOKEN", h4, by rw [← hmsg]; rfl⟩
  rcases h5 : env "DRIVE_TOKEN" with _ | f
  · refine ⟨by simp [from_env, h1, h2, h3, h4, h5],
      by simp [from_env, h1, h2, h3, h4, h5], ?_⟩
    intro msg hmsg
    simp [from_env, h1, h2, h3, h4, h5] at hmsg
    exact ⟨"DRIVE_TOKEN", h5, by rw [← hmsg]; rfl⟩
  refine ⟨?_, ?_, ?_⟩
  · intro cfg h
    have h' : ApiConfig.mk a b c d f = cfg := by
      simpa [from_env, h1, h2, h3, h4, h5] using h
    subst h'
    exact ⟨rfl, rfl, rfl, rfl, rfl⟩
  · constructor
    · intro _
      simp [h1, h2, h3, h4, h5]
    · intro _
      exact ⟨ApiConfig.mk a b c d f, by simp [from_env, h1, h2, h3, h4, h5]⟩
  · intro msg hmsg
    simp [from_env, h1, h2, h3, h4, h5] at hmsg

/-- Witness for C7: an environment with all five variables set satisfies
the success clause, and one missing `DRIVE_URL` produces an error naming
a missing variable. -/
theorem C7_from_env_witness :
    (env0 "API_URL" = some "API_URL-val" ∧ env0 "DRIVE_URL" = some "DRIVE_URL-val" ∧
     env0 "CLIENT_ID" = some "CLIENT_ID-val" ∧ env0 "WP_TOKEN" = some "WP_TOKEN-val" ∧
     env0 "DRIVE_TOKEN" = some "DRIVE_TOKEN-val") ∧
    (∃ v, env1 v = none ∧
      "DRIVE_URL not found in environment" = v ++ " not found in environment") :=
  ⟨(C7_from_env env0).1
      (ApiConfig.mk "API_URL-val" "DRIVE_URL-val" "CLIENT_ID-val" "WP_TOKEN-val"
        "DRIVE_TOKEN-val") (by rfl),
   (C7_from_env env1).2.2 "DRIVE_URL not found in environment" (by rfl)⟩

/-- `String.mk` prepends its characters literally under append. -/
theorem data_mk_append (l : List Char) (t : String) : (String.mk l ++ t).data = l ++ t.data :=
  rfl

/-- The two-character padding string. -/
theorem data_pad2 : ("==" : String).data = ['=', '='] := rfl

/-- The one-character padding string. -/
theorem data_pad1 : ("=" : String).data = ['='] := rfl

/-- Decoding a sextet character recovers the sextet. -/
theorem decodeSextet_sextetChar : ∀ s : Nat, s < 64 → decodeSextet (sextetChar s) = s := by
  decide

/-- No sextet character is the padding character. -/
theorem sextetChar_ne : ∀ s : Nat, s < 64 → ¬ (sextetChar s = '=') := by
  decide

/-- Standard base64 decoding inverts standard base64 encoding on byte
lists. -/
theorem base64_round_trip : ∀ (bs : List Nat), (∀ b ∈ bs, b < 256) →
    base64Decode (base64Encode bs) = bs
  | [] => fun _ => rfl
  | [b0] => fun h => by
      have hb0 : b0 < 256 := h b0 (by simp)
      have e1 : decodeSextet (sextetChar (b0 / 4)) = b0 / 4 :=
        decodeSextet_sextetChar _ (by omega)
      have e2 : decodeSextet (sextetChar (b0 % 4 * 16)) = b0 % 4 * 16 :=
        decodeSextet_sextetChar _ (by omega)
      simp [base64Encode, base64Decode, data_mk_append, data_pad2, base64DecodeChars,
        decodeChunk4, e1, e2]
      omega
  | [b0, b1] => fun h => by
      have hb0 : b0 < 256 := h b0 (by simp)
      have hb1 : b1 < 256 := h b1 (by simp)
      have e1 : decodeSextet (sextetChar (b0 / 4)) = b0 / 4 :=
        decodeSextet_sextetChar _ (by omega)
      have e2 : decodeSextet (sextetChar (b0 % 4 * 16 + b1 / 16)) = b0 % 4 * 16 + b1 / 16 :=
        decodeSextet_sextetChar _ (by omega)
      have e3 : decodeSextet (sextetChar (b1 % 16 * 4)) = b1 % 16 * 4 :=
        decodeSextet_sextetChar _ (by omega)
      have ne3 : ¬ (sextetChar (b1 % 16 * 4) = '=') := sextetChar_ne _ (by omega)
      simp [base64Encode, base64Decode, data_mk_append, data_pad1, base64DecodeChars,
        decodeChunk4, e1, e2, e3, ne3]
      omega
  | b0 :: b1 :: b2 :: rest => fun h => by
      have hb0 : b0 < 256 := h b0 (by simp)
      have hb1 : b1 < 256 := h b1 (by simp)
      have hb2 : b2 < 256 := h b2 (by simp)
      have ih := base64_round_trip rest (fun b hb => h b (by simp [hb]))
      have e1 : decodeSextet (sextetChar (b0 / 4)) = b0 / 4 :=
        decodeSextet_sextetChar _ (by omega)
      have e2 : decodeSextet (sextetChar (b0 % 4 * 16 + b1 / 16)) = b0 % 4 * 16 + b1 / 16 :=
        decodeSextet_sextetChar _ (by omega)
      have e3 : decodeSextet (sextetChar (b1 % 16 * 4 + b2 / 64)) = b1 % 16 * 4 + b2 / 64 :=
        decodeSextet_sextetChar _ (by omega)
      have e4 : decodeSextet (sextetChar (b2 % 64)) = b2 % 64 :=
        decodeSextet_sextetChar _ (by omega)
      have ne4 : ¬ (sextetChar (b2 % 64) = '=') := sextetChar_ne _ (by omega)
      simp [base64Decode] at ih
      simp [base64Encode, base64Decode, data_mk_append, base64DecodeChars,
        decodeChunk4, e1, e2, e3, e4, ne4, ih]
      omega

/-- C4: on a successful fetch, the image content's data field is exactly
the standard base64 encoding of the upstream bytes, and base64-decoding
it recovers the bytes unchanged. -/
theorem C4_cover_image_base64 (cfg : ApiConfig) (request : GetImageRequest)
    (bytes : List Nat) (status : Nat) (h : is_success status = true)
    (hbytes : ∀ b ∈ bytes, b < 256) :
    (∃ mime, (get_cover_image cfg request (HttpOutcome.response status (Except.ok bytes))).2 =
        .ok (CallToolResult.success [Content.image (base64Encode bytes) mime])) ∧
    base64Decode (base64Encode bytes) = bytes := by
  refine ⟨⟨(if ends_with request.rel_url ".png" then "image/png"
      else if ends_with request.rel_url ".jpg" || ends_with request.rel_url ".jpeg" then
        "image/jpeg"
      else if ends_with request.rel_url ".gif" then "image/gif"
      else if ends_with request.rel_url ".webp" then "image/webp"
      else "image/jpeg"), ?_⟩, base64_round_trip bytes hbytes⟩
  simp [get_cover_image, make_get_image_request, h]

/-- Witness for C4 at a concrete input: the bytes `[255, 0, 10]` are
base64-encoded into the image content and decode back unchanged. -/
theorem C4_cover_image_base64_witness :
    (∃ mime, (get_cover_image cfg0 { rel_url := "a.jpg" }
        (HttpOutcome.response 200 (Except.ok [255, 0, 10]))).2 =
        .ok (CallToolResult.success [Content.image (base64Encode [255, 0, 10]) mime])) ∧
    base64Decode (base64Encode [255, 0, 10]) = [255, 0, 10] :=
  C4_cover_image_base64 cfg0 { rel_url := "a.jpg" } [255, 0, 10] 200 (by decide) (by decide)
